import Mathlib

/-!
Verification of the `new-cmsmobile` repository's UserStore (MobX-State-Tree)
and API-client behaviour, as a shallow embedding in Lean.

Sources embedded:
- `src/app/stores/UserStore/models.ts` (User, UserSession, UserPreferences)
- `src/app/stores/UserStore/actions.ts` (sync setters and async flows)
- `src/app/stores/UserStore/views.ts` (computed views)
- `src/app/services/api/i3hostApi.ts` (401-response handling)

Modelling conventions:
- JS `undefined`-able fields become `Option`.
- Truthiness checks (`!!x`, `if (x)`) on strings are modelled as `≠ ""`
  on the present value, and `false` on the absent one, matching JS where
  the only falsy strings are empty ones.
- `Date.now()` is a per-flow `now : Int` parameter (epoch milliseconds);
  `Date#toISOString` is abstracted by the injective `toIsoString`, whose
  textual format no claim inspects.
- `JSON.parse` failure (thrown `SyntaxError`) is the `StoredBlob.corrupt`
  case; well-shaped blobs carry their structured content.  A flow body that
  can throw at a mocked `await` point takes a `FlowOutcome` argument.
- MobX-State-Tree `create` on a model whose required fields are missing
  throws; in `hydrate` a stored blob of the wrong shape under the session
  or user key is therefore routed to the catch branch.
-/

namespace CMSMobile

/-- User model from `models.ts`: `id` and `email` required, `name` and
`avatar` optional. -/
structure User where
  id : String
  email : String
  name : Option String := none
  avatar : Option String := none
  deriving Repr, DecidableEq

/-- UserSession model from `models.ts`: required `token`, optional
`expiresAt` and `refreshToken`.  The same shape is the input of
`setSession`, which is why one structure serves both roles. -/
structure UserSession where
  token : String
  expiresAt : Option String := none
  refreshToken : Option String := none
  deriving Repr, DecidableEq

/-- UserPreferences model from `models.ts`: all three fields are
`types.optional` with defaults `"system"`, `"en"`, `true`; an instance
always carries all three. -/
structure UserPreferences where
  theme : String := "system"
  language : String := "en"
  notifications : Bool := true
  deriving Repr, DecidableEq

/-- Argument shape of `setPreferences`:
`{ theme?: string; language?: string; notifications?: boolean }`. -/
structure PrefsInput where
  theme : Option String := none
  language : Option String := none
  notifications : Option Bool := none
  deriving Repr, DecidableEq

/-- UserPreferences.create applied to a partial input: `types.optional`
fills each missing field with its default. -/
def UserPreferences.create (p : PrefsInput) : UserPreferences :=
  { theme := p.theme.getD "system"
    language := p.language.getD "en"
    notifications := p.notifications.getD true }

/-- Argument shape of `updateProfile` / `updateUserProfile`:
`{ name?: string; avatar?: string }`. -/
structure ProfileUpdates where
  name : Option String := none
  avatar : Option String := none
  deriving Repr, DecidableEq

/-- Structured content of a persisted JSON blob: the three shapes the
UserStore ever writes (`JSON.stringify` of session input, user input, or a
full preferences instance). -/
inductive StoredJson where
  | session : UserSession → StoredJson
  | user : User → StoredJson
  | prefs : UserPreferences → StoredJson
  deriving Repr, DecidableEq

/-- Modelled from the spec: persisted values are JSON-serialized blobs; a
blob is either well-formed JSON of one of the shapes the store writes, or
corrupted text on which `JSON.parse` throws. -/
inductive StoredBlob where
  | json : StoredJson → StoredBlob
  | corrupt : String → StoredBlob
  deriving Repr, DecidableEq

/-- Modelled from the spec: `src/app/utils/storage` (not present under
`src/`) is a key-value storage wrapper with `set`, `getString` and
`delete`, holding one blob per string key. -/
abbrev Storage := String → Option StoredBlob

/-- storage.set writes a blob under a key. -/
def Storage.set (sto : Storage) (k : String) (v : StoredBlob) : Storage :=
  fun q => if q = k then some v else sto q

/-- storage.getString reads the blob under a key. -/
def Storage.getString (sto : Storage) (k : String) : Option StoredBlob :=
  sto k

/-- storage.delete removes the blob under a key. -/
def Storage.delete (sto : Storage) (k : String) : Storage :=
  fun q => if q = k then none else sto q

/-- Empty storage. -/
def Storage.emptyStore : Storage := fun _ => none

/-- JSON.parse on a stored blob: structured content on success, `none`
models the thrown `SyntaxError` on corrupted text. -/
def jsonParse : StoredBlob → Option StoredJson
  | .json j => some j
  | .corrupt _ => none

/-- UserStore model fields (`UserStore.ts` / `types.ts`): three `maybe`
sub-models, two `optional` booleans defaulting to `false`, and a `maybe`
error string. -/
structure UserStoreState where
  currentUser : Option User := none
  session : Option UserSession := none
  preferences : Option UserPreferences := none
  isLoading : Bool := false
  isAuthenticating : Bool := false
  error : Option String := none
  deriving Repr, DecidableEq

/-- A store instance together with the storage it persists to. -/
structure Store where
  st : UserStoreState
  sto : Storage

/-- setLoading from `actions.ts`. -/
def setLoading (m : Store) (loading : Bool) : Store :=
  { m with st := { m.st with isLoading := loading } }

/-- setAuthenticating from `actions.ts`. -/
def setAuthenticating (m : Store) (b : Bool) : Store :=
  { m with st := { m.st with isAuthenticating := b } }

/-- setError from `actions.ts`: `self.error = error || undefined`, so both
`null` and the empty string store `undefined`. -/
def setError (m : Store) (e : Option String) : Store :=
  { m with st := { m.st with error :=
      match e with
      | some s => if s = "" then none else some s
      | none => none } }

/-- clearError from `actions.ts`. -/
def clearError (m : Store) : Store :=
  { m with st := { m.st with error := none } }

/-- setSession from `actions.ts`: `UserSession.create` copies the fields,
and the raw argument is persisted under `"userSession"`; `null` clears the
field and deletes the key. -/
def setSession (m : Store) (d : Option UserSession) : Store :=
  match d with
  | some s =>
      { m with
        st := { m.st with session := some s }
        sto := m.sto.set "userSession" (.json (.session s)) }
  | none =>
      { m with
        st := { m.st with session := none }
        sto := m.sto.delete "userSession" }

/-- setCurrentUser from `actions.ts`: persists under `"currentUser"`,
`null` clears and deletes. -/
def setCurrentUser (m : Store) (d : Option User) : Store :=
  match d with
  | some u =>
      { m with
        st := { m.st with currentUser := some u }
        sto := m.sto.set "currentUser" (.json (.user u)) }
  | none =>
      { m with
        st := { m.st with currentUser := none }
        sto := m.sto.delete "currentUser" }

/-- setPreferences from `actions.ts`: creates the instance when absent,
otherwise updates field-by-field (`if (preferences.theme)` and
`if (preferences.language)` are truthiness checks, so an empty string is
skipped; `notifications` is compared against `undefined`), then persists
the resulting instance under `"userPreferences"`. -/
def setPreferences (m : Store) (p : PrefsInput) : Store :=
  let prefs : UserPreferences :=
    match m.st.preferences with
    | none => UserPreferences.create p
    | some cur =>
        let c1 := match p.theme with
          | some t => if t = "" then cur else { cur with theme := t }
          | none => cur
        let c2 := match p.language with
          | some l => if l = "" then c1 else { c1 with language := l }
          | none => c1
        match p.notifications with
          | some b => { c2 with notifications := b }
          | none => c2
  { m with
    st := { m.st with preferences := some prefs }
    sto := m.sto.set "userPreferences" (.json (.prefs prefs)) }

/-- updateProfile from `actions.ts`: no-op without a current user;
truthy `name` / `avatar` fields overwrite, and the updated user is
re-persisted under `"currentUser"`. -/
def updateProfile (m : Store) (u : ProfileUpdates) : Store :=
  match m.st.currentUser with
  | none => m
  | some cu =>
      let c1 := match u.name with
        | some n => if n = "" then cu else { cu with name := some n }
        | none => cu
      let c2 := match u.avatar with
        | some a => if a = "" then c1 else { c1 with avatar := some a }
        | none => c1
      { m with
        st := { m.st with currentUser := some c2 }
        sto := m.sto.set "currentUser" (.json (.user c2)) }

/-- Outcome of a flow body's awaited mock: either the promise resolved, or
something was thrown at the await point (`some msg` for an `Error` carrying
`msg` as its message, `none` for a non-`Error` value). -/
inductive FlowOutcome where
  | ok
  | throws (msg : Option String)
  deriving Repr, DecidableEq

/-- Result object `{ success: boolean; error?: string }` returned by the
async flows. -/
structure ActionResult where
  success : Bool
  error : Option String := none
  deriving Repr, DecidableEq

/-- Abstraction of `new Date(t).toISOString()`: an injective textual
rendering of the epoch-millisecond timestamp.  No claim inspects the
format, only propagates the string. -/
def toIsoString (t : Int) : String := toString t

/-- Truthiness of `self.session?.token`: a session must be present and its
token non-empty. -/
def sessionTokenTruthy (st : UserStoreState) : Bool :=
  match st.session with
  | some s => if s.token = "" then false else true
  | none => false

/-- login flow from `actions.ts`: sets `isAuthenticating`, clears the
error, then either authenticates the fixed demo credentials (building a
mock session, user and default preferences) or records
"Invalid email or password"; a throw at the mocked delay is caught and
recorded; `finally` clears `isAuthenticating`. -/
def login (m : Store) (now : Int) (email password : String)
    (outcome : FlowOutcome) : Store × ActionResult :=
  let m0 := clearError (setAuthenticating m true)
  let body : Store × ActionResult :=
    match outcome with
    | .throws msg =>
        let errorMessage := msg.getD "Login failed"
        (setError m0 (some errorMessage), ⟨false, some errorMessage⟩)
    | .ok =>
        if email = "demo@example.com" ∧ password = "password" then
          let mockUser : User :=
            { id := "1", email := email, name := some "Demo User"
              avatar := some "https://via.placeholder.com/150" }
          let mockSession : UserSession :=
            { token := "mock_jwt_token_" ++ toString now
              expiresAt := some (toIsoString (now + 24 * 60 * 60 * 1000))
              refreshToken := some ("mock_refresh_token_" ++ toString now) }
          let defaultPreferences : PrefsInput :=
            { theme := some "system", language := some "en"
              notifications := some true }
          let m1 := setSession m0 (some mockSession)
          let m2 := setCurrentUser m1 (some mockUser)
          let m3 := setPreferences m2 defaultPreferences
          (m3, ⟨true, none⟩)
        else
          (setError m0 (some "Invalid email or password"),
            ⟨false, some "Invalid email or password"⟩)
  (setAuthenticating body.1 false, body.2)

/-- logout flow from `actions.ts`: clears session, user and error; if the
try block throws, the catch still clears session and user (but not the
error); `finally` clears `isLoading`. -/
def logout (m : Store) (outcome : FlowOutcome) : Store :=
  let m0 := setLoading m true
  let body : Store :=
    match outcome with
    | .ok => clearError (setCurrentUser (setSession m0 none) none)
    | .throws _ => setCurrentUser (setSession m0 none) none
  setLoading body false

/-- First hydrate step: read `"userSession"`; absent key is skipped, a
parse failure throws, a well-shaped session blob is applied via
`setSession`, and a wrong-shaped blob throws inside `UserSession.create`
(missing required `token`). -/
def readSessionStep (m : Store) : Except Store Store :=
  match m.sto.getString "userSession" with
  | none => .ok m
  | some blob =>
      match jsonParse blob with
      | none => .error m
      | some (.session s) => .ok (setSession m (some s))
      | some _ => .error m

/-- Second hydrate step: read `"currentUser"`; wrong-shaped blobs throw
inside `User.create` (missing required `id` / `email`). -/
def readUserStep (m : Store) : Except Store Store :=
  match m.sto.getString "currentUser" with
  | none => .ok m
  | some blob =>
      match jsonParse blob with
      | none => .error m
      | some (.user u) => .ok (setCurrentUser m (some u))
      | some _ => .error m

/-- Preference fields a parsed JSON object presents to `setPreferences`:
the stored preference record's own fields, or all-absent for an object of
another shape (every `UserPreferences` field is optional, so no throw). -/
def prefsInputOfJson : StoredJson → PrefsInput
  | .prefs p =>
      { theme := some p.theme, language := some p.language
        notifications := some p.notifications }
  | _ => { theme := none, language := none, notifications := none }

/-- Third hydrate step: read `"userPreferences"`; a parse failure throws,
any parsed object is handed to `setPreferences`. -/
def readPrefsStep (m : Store) : Except Store Store :=
  match m.sto.getString "userPreferences" with
  | none => .ok m
  | some blob =>
      match jsonParse blob with
      | none => .error m
      | some j => .ok (setPreferences m (prefsInputOfJson j))

/-- Body of hydrate's try block: the three reads in source order; the two
trailing `if`s of the source contain only commented-out calls and have no
effect. -/
def hydrateBody (m : Store) : Except Store Store :=
  match readSessionStep m with
  | .error e => .error e
  | .ok m1 =>
      match readUserStep m1 with
      | .error e => .error e
      | .ok m2 => readPrefsStep m2

/-- hydrate flow from `actions.ts`: sets `isLoading`, runs the three
reads; on a throw the catch clears session and user; `finally` clears
`isLoading`. -/
def hydrate (m : Store) : Store :=
  let m0 := setLoading m true
  let m1 : Store :=
    match hydrateBody m0 with
    | .ok m' => m'
    | .error m' => setCurrentUser (setSession m' none) none
  setLoading m1 false

/-- refreshUser flow from `actions.ts`: early-returns without touching any
flag when `self.session?.token` is falsy; otherwise sets `isLoading`, a
throw at the mocked delay records a fixed error message, and `finally`
clears `isLoading`. -/
def refreshUser (m : Store) (outcome : FlowOutcome) : Store :=
  if sessionTokenTruthy m.st then
    let m0 := setLoading m true
    let body : Store :=
      match outcome with
      | .ok => m0
      | .throws _ => setError m0 (some "Failed to refresh user data")
    setLoading body false
  else m

/-- updateUserProfile flow from `actions.ts`: fails fast (before touching
`isLoading`) without a session token; otherwise sets `isLoading`, applies
`updateProfile` locally, catches a thrown error into the store error, and
`finally` clears `isLoading`. -/
def updateUserProfile (m : Store) (updates : ProfileUpdates)
    (outcome : FlowOutcome) : Store × ActionResult :=
  if sessionTokenTruthy m.st then
    let m0 := setLoading m true
    let body : Store × ActionResult :=
      match outcome with
      | .ok => (updateProfile m0 updates, ⟨true, none⟩)
      | .throws msg =>
          let errorMessage := msg.getD "Update failed"
          (setError m0 (some errorMessage), ⟨false, some errorMessage⟩)
    (setLoading body.1 false, body.2)
  else
    (setError m (some "Not authenticated"), ⟨false, some "Not authenticated"⟩)

/-- updatePreferences flow from `actions.ts`: sets `isLoading`, applies
`setPreferences`, catches a thrown error into the store error, and
`finally` clears `isLoading`. -/
def updatePreferences (m : Store) (p : PrefsInput)
    (outcome : FlowOutcome) : Store × ActionResult :=
  let m0 := setLoading m true
  let body : Store × ActionResult :=
    match outcome with
    | .ok => (setPreferences m0 p, ⟨true, none⟩)
    | .throws msg =>
        let errorMessage := msg.getD "Failed to update preferences"
        (setError m0 (some errorMessage), ⟨false, some errorMessage⟩)
  (setLoading body.1 false, body.2)

/-- Guard-failure result of refreshSession (`!self.session?.refreshToken`). -/
def refreshGuardFail (m : Store) : Store × ActionResult :=
  (setError m (some "No refresh token available"),
    ⟨false, some "No refresh token available"⟩)

/-- refreshSession flow from `actions.ts`: without a truthy refresh token
it records "No refresh token available"; on success it installs a fresh
mock session reusing the old refresh token; if the try block throws it
records the error message, cascades into `logout()`, and still returns the
failure result.  There is no `finally` in this flow. -/
def refreshSession (m : Store) (now : Int) (outcome : FlowOutcome) :
    Store × ActionResult :=
  match m.st.session with
  | none => refreshGuardFail m
  | some s =>
      match s.refreshToken with
      | none => refreshGuardFail m
      | some rt =>
          if rt = "" then refreshGuardFail m
          else
            match outcome with
            | .ok =>
                let newSession : UserSession :=
                  { token := "refreshed_token_" ++ toString now
                    expiresAt := some (toIsoString (now + 24 * 60 * 60 * 1000))
                    refreshToken := some rt }
                (setSession m (some newSession), ⟨true, none⟩)
            | .throws msg =>
                let errorMessage := msg.getD "Session refresh failed"
                let m1 := setError m (some errorMessage)
                let m2 := logout m1 .ok
                (m2, ⟨false, some errorMessage⟩)

/-- userEmail view from `views.ts`: `self.currentUser?.email || ""`. -/
def userEmail (st : UserStoreState) : String :=
  match st.currentUser with
  | some u => u.email
  | none => ""

/-- isAuthenticated view from `views.ts`:
`!!self.session?.token && !!self.currentUser`. -/
def isAuthenticated (st : UserStoreState) : Bool :=
  sessionTokenTruthy st && st.currentUser.isSome

/-- JS `\s` character class (the whitespace set of ECMA-262). -/
def isJsSpace (c : Char) : Bool :=
  c = ' ' || c = '\t' || c = '\n' || c = '\r' || c = '\x0B' || c = '\x0C' ||
  c = '\u00A0' || c = '\u1680' || ('\u2000' ≤ c && c ≤ '\u200A') ||
  c = '\u2028' || c = '\u2029' || c = '\u202F' || c = '\u205F' ||
  c = '\u3000' || c = '\uFEFF'

/-- Character class `[^\s@]` of the email regex. -/
def emailChar (c : Char) : Bool :=
  !(isJsSpace c) && !(c = '@')

/-- True when some element other than the last one is a dot: the
`\.[^\s@]+$` tail demands a dot that is not the final character. -/
def hasDotNotLast : List Char → Bool
  | [] => false
  | [_] => false
  | c :: rest => (c = '.') || hasDotNotLast rest

/-- `/^[^\s@]+@[^\s@]+\.[^\s@]+$/.test email`: a non-empty `[^\s@]` run,
the literal `@`, then a domain of `[^\s@]` characters containing a dot
that is neither its first nor its last character (the dot splits the
domain into the two required non-empty `[^\s@]+` runs; `.` itself lies in
`[^\s@]`, so both runs may contain further dots). -/
def emailRegexTest (s : String) : Bool :=
  match s.data.span emailChar with
  | (localPart, '@' :: domain) =>
      !localPart.isEmpty && domain.all emailChar &&
        (match domain with
         | [] => false
         | _ :: t => hasDotNotLast t)
  | _ => false

/-- emailValidationError view from `views.ts`: the three-rule chain in
source order.  (`email.length` counts UTF-16 units in JS and codepoints
here; the two agree on all of the Basic Multilingual Plane.) -/
def emailValidationError (st : UserStoreState) : String :=
  let email := userEmail st
  if email = "" ∨ email.length = 0 then "Email can't be blank"
  else if email.length < 6 then "Email must be at least 6 characters"
  else if !(emailRegexTest email) then "Must be a valid email address"
  else ""

/-- isSessionExpired view from `views.ts`:
`if (!self.session?.expiresAt) return false` (the empty string is falsy),
then `new Date() > new Date(expiresAt)` — `parseDate` abstracts
`Date` parsing, `none` standing for an Invalid Date, whose comparisons are
all false. -/
def isSessionExpired (st : UserStoreState) (now : Int)
    (parseDate : String → Option Int) : Bool :=
  match st.session with
  | none => false
  | some s =>
      match s.expiresAt with
      | none => false
      | some e =>
          if e = "" then false
          else
            match parseDate e with
            | none => false
            | some t => decide (t < now)

/-- Observable state of the `I3HostApi` client from `i3hostApi.ts`:
whether a logout callback has been registered, how many times it has been
invoked, and the navigation ref's readiness and stack. -/
structure ApiClientState where
  logoutCallbackSet : Bool
  logoutCalls : Nat
  navReady : Bool
  navIndex : Nat
  navRoutes : List String
  deriving Repr, DecidableEq

/-- setLogoutCallback from `i3hostApi.ts`. -/
def setLogoutCallback (c : ApiClientState) : ApiClientState :=
  { c with logoutCallbackSet := true }

/-- handle401Error from `i3hostApi.ts`: invoke the logout callback when
one is set, then reset navigation to the single `"Login"` route when the
navigation ref is ready. -/
def handle401Error (c : ApiClientState) : ApiClientState :=
  let c1 :=
    if c.logoutCallbackSet then { c with logoutCalls := c.logoutCalls + 1 }
    else c
  if c1.navReady then { c1 with navIndex := 0, navRoutes := ["Login"] }
  else c1

/-- The response transform installed by `setupInterceptors`:
`if (response.status === 401) this.handle401Error()`.  `status` is
`number | undefined` in apisauce, hence `Option Nat`. -/
def responseTransform (c : ApiClientState) (status : Option Nat) :
    ApiClientState :=
  if status = some 401 then handle401Error c else c

/-- A store state that already holds a session, to exercise login with
wrong credentials on a logged-in store. -/
def c1CexState : UserStoreState :=
  { session := some { token := "tok", expiresAt := none, refreshToken := none } }

/-- The mock session `login` installs at time `now`. -/
def mockSessionAt (now : Int) : UserSession :=
  { token := "mock_jwt_token_" ++ toString now
    expiresAt := some (toIsoString (now + 24 * 60 * 60 * 1000))
    refreshToken := some ("mock_refresh_token_" ++ toString now) }

/-- Storage whose persisted session blob is corrupted text. -/
def c3Storage : Storage :=
  fun k => if k = "userSession" then some (.corrupt "not-json") else none

/-- Store state with no user at all, so `userEmail` falls back to `""`. -/
def c4StateBlank : UserStoreState := {}

/-- Store state whose user email is 5 characters long. -/
def c4StateShort : UserStoreState :=
  { currentUser := some { id := "1", email := "a@b.c" } }

/-- Store state whose user email is 6 characters but has no `@`. -/
def c4StateNoAt : UserStoreState :=
  { currentUser := some { id := "1", email := "abcdef" } }

/-- Store state whose user email passes the regex. -/
def c4StateValid : UserStoreState :=
  { currentUser := some { id := "1", email := "demo@example.com" } }

/-- Store state with a session carrying an expiry string. -/
def c5State : UserStoreState :=
  { session := some { token := "t", expiresAt := some "2020-01-01"
                      refreshToken := none } }

/-- A concrete `Date`-parsing function: invalid on the empty string (as
`new Date("")` is an Invalid Date), timestamp 100 elsewhere. -/
def c5Parse : String → Option Int :=
  fun s => if s = "" then none else some 100

/-- Store state holding a session with a refresh token. -/
def c6State : UserStoreState :=
  { session := some { token := "t", expiresAt := none
                      refreshToken := some "r" } }

/-- Store state holding a session token, so the guarded flows pass their
entry check. -/
def c7State : UserStoreState :=
  { session := some { token := "t", expiresAt := none
                      refreshToken := none } }

/-- Run the three persisting setters on a fresh store over empty storage:
`setSession(s)`, `setCurrentUser(u)`, `setPreferences(p)` with the full
preference record passed field-by-field. -/
def persistAll (s : UserSession) (u : User) (p : UserPreferences) : Store :=
  setPreferences
    (setCurrentUser (setSession ⟨{}, Storage.emptyStore⟩ (some s)) (some u))
    { theme := some p.theme, language := some p.language
      notifications := some p.notifications }

/-- Concrete session for the round-trip witness. -/
def c8Session : UserSession :=
  { token := "tok", expiresAt := none, refreshToken := none }

/-- Concrete user for the round-trip witness. -/
def c8User : User :=
  { id := "1", email := "e@x.co", name := none, avatar := none }

/-- Concrete preferences for the round-trip witness. -/
def c8Prefs : UserPreferences :=
  { theme := "dark", language := "en", notifications := true }

/-- Concrete API-client state with a registered logout callback, a ready
navigation ref and a non-trivial navigation stack. -/
def c9Client : ApiClientState :=
  { logoutCallbackSet := true, logoutCalls := 0, navReady := true
    navIndex := 3, navRoutes := ["Home", "Details"] }

/- ------------------------------------------------------------------ -/
/- Helper lemmas -/
/- ------------------------------------------------------------------ -/

theorem mock_token_ne (now : Int) :
    ("mock_jwt_token_" ++ toString now : String) ≠ "" := by
  intro h
  have h2 := congrArg String.length h
  rw [String.length_append] at h2
  have h3 : ("mock_jwt_token_" : String).length = 15 := rfl
  have h4 : ("" : String).length = 0 := rfl
  omega

theorem string_eq_empty_of_length {s : String} (h : s.length = 0) :
    s = "" := by
  cases s with
  | mk data =>
      cases data with
      | nil => rfl
      | cons c cs => simp [String.length] at h

theorem readSessionStep_error_eq {m e : Store}
    (h : readSessionStep m = .error e) : e = m := by
  unfold readSessionStep at h
  split at h
  · exact Except.noConfusion h
  · split at h
    · injection h with h'
      exact h'.symm
    · exact Except.noConfusion h
    · injection h with h'
      exact h'.symm

theorem readSessionStep_ok_pres {m m1 : Store}
    (h : readSessionStep m = .ok m1) :
    m1.st.error = m.st.error ∧
    m1.sto "currentUser" = m.sto "currentUser" ∧
    m1.sto "userPreferences" = m.sto "userPreferences" := by
  unfold readSessionStep at h
  split at h
  · injection h with h'
    subst h'
    exact ⟨rfl, rfl, rfl⟩
  · split at h
    · exact Except.noConfusion h
    · injection h with h'
      subst h'
      exact ⟨rfl, rfl, rfl⟩
    · exact Except.noConfusion h

theorem readUserStep_error_eq {m e : Store}
    (h : readUserStep m = .error e) : e = m := by
  unfold readUserStep at h
  split at h
  · exact Except.noConfusion h
  · split at h
    · injection h with h'
      exact h'.symm
    · exact Except.noConfusion h
    · injection h with h'
      exact h'.symm

theorem readUserStep_ok_pres {m m1 : Store}
    (h : readUserStep m = .ok m1) :
    m1.st.error = m.st.error ∧
    m1.sto "userPreferences" = m.sto "userPreferences" := by
  unfold readUserStep at h
  split at h
  · injection h with h'
    subst h'
    exact ⟨rfl, rfl⟩
  · split at h
    · exact Except.noConfusion h
    · injection h with h'
      subst h'
      exact ⟨rfl, rfl⟩
    · exact Except.noConfusion h

theorem readPrefsStep_corruptErr {m : Store} {r : String}
    (h : m.sto "userPreferences" = some (.corrupt r)) :
    readPrefsStep m = .error m := by
  unfold readPrefsStep Storage.getString
  rw [h]
  rfl

theorem hydrateBody_error1 {m e : Store}
    (h : readSessionStep m = .error e) : hydrateBody m = .error e := by
  unfold hydrateBody
  rw [h]

theorem hydrateBody_ok1 {m m1 : Store}
    (h : readSessionStep m = .ok m1) :
    hydrateBody m =
      (match readUserStep m1 with
       | .error e => .error e
       | .ok m2 => readPrefsStep m2) := by
  unfold hydrateBody
  rw [h]

theorem hydrateBody_corrupt (m : Store)
    (h : (∃ r, m.sto "userSession" = some (StoredBlob.corrupt r)) ∨
         (∃ r, m.sto "currentUser" = some (StoredBlob.corrupt r)) ∨
         (∃ r, m.sto "userPreferences" = some (StoredBlob.corrupt r))) :
    ∃ e, hydrateBody m = .error e ∧ e.st.error = m.st.error := by
  rcases h with ⟨r, hr⟩ | ⟨r, hr⟩ | ⟨r, hr⟩
  · refine ⟨m, ?_, rfl⟩
    have hs : readSessionStep m = .error m := by
      unfold readSessionStep Storage.getString
      rw [hr]
      rfl
    exact hydrateBody_error1 hs
  · cases hs : readSessionStep m with
    | error e =>
        exact ⟨e, hydrateBody_error1 hs, by rw [readSessionStep_error_eq hs]⟩
    | ok m1 =>
        obtain ⟨he, hcu, _⟩ := readSessionStep_ok_pres hs
        have hu : readUserStep m1 = .error m1 := by
          unfold readUserStep Storage.getString
          rw [hcu, hr]
          rfl
        refine ⟨m1, ?_, he⟩
        rw [hydrateBody_ok1 hs, hu]
  · cases hs : readSessionStep m with
    | error e =>
        exact ⟨e, hydrateBody_error1 hs, by rw [readSessionStep_error_eq hs]⟩
    | ok m1 =>
        obtain ⟨he1, _, hup1⟩ := readSessionStep_ok_pres hs
        cases hu : readUserStep m1 with
        | error e =>
            refine ⟨e, ?_, ?_⟩
            · rw [hydrateBody_ok1 hs, hu]
            · rw [readUserStep_error_eq hu, he1]
        | ok m2 =>
            obtain ⟨he2, hup2⟩ := readUserStep_ok_pres hu
            have hp : readPrefsStep m2 = .error m2 :=
              readPrefsStep_corruptErr (by rw [hup2, hup1, hr])
            refine ⟨m2, ?_, by rw [he2, he1]⟩
            rw [hydrateBody_ok1 hs, hu]
            show readPrefsStep m2 = Except.error m2
            exact hp

/- ------------------------------------------------------------------ -/
/- Claims -/
/- ------------------------------------------------------------------ -/

/-- C1 (amended): for every store state, `login("demo@example.com",
"password")` ends with `isAuthenticated` true, a session whose token is a
non-empty string, and result `{success:true}`; for every other credential
pair `login` returns `{success:false}` (with the "Invalid email or
password" message) and leaves the session field unchanged — not
necessarily unset, which is the one correction to the claim. -/
theorem claim_C1 (st : UserStoreState) (sto : Storage) (now : Int)
    (email password : String)
    (hne : ¬(email = "demo@example.com" ∧ password = "password")) :
    isAuthenticated
      (login ⟨st, sto⟩ now "demo@example.com" "password" FlowOutcome.ok).1.st
      = true ∧
    (∃ s, (login ⟨st, sto⟩ now "demo@example.com" "password"
        FlowOutcome.ok).1.st.session = some s ∧ s.token ≠ "") ∧
    (login ⟨st, sto⟩ now "demo@example.com" "password" FlowOutcome.ok).2
      = ⟨true, none⟩ ∧
    (login ⟨st, sto⟩ now email password FlowOutcome.ok).2
      = ⟨false, some "Invalid email or password"⟩ ∧
    (login ⟨st, sto⟩ now email password FlowOutcome.ok).1.st.session
      = st.session := by
  have htok := mock_token_ne now
  refine ⟨?_, ⟨mockSessionAt now, rfl, htok⟩, rfl, ?_, ?_⟩
  · show (if ("mock_jwt_token_" ++ toString now : String) = ""
        then false else true) && true = true
    rw [if_neg htok]
    rfl
  · simp only [login]
    rw [if_neg hne]
  · simp only [login]
    rw [if_neg hne]
    rfl

/-- C1 witness: the two branches of `claim_C1` at concrete inputs. -/
theorem claim_C1_witness :
    isAuthenticated
      (login ⟨{}, Storage.emptyStore⟩ 5 "demo@example.com" "password"
        FlowOutcome.ok).1.st = true ∧
    (login ⟨{}, Storage.emptyStore⟩ 5 "demo@example.com" "password"
      FlowOutcome.ok).2 = ⟨true, none⟩ ∧
    (login ⟨{}, Storage.emptyStore⟩ 5 "user@example.com" "hunter2"
      FlowOutcome.ok).2 = ⟨false, some "Invalid email or password"⟩ ∧
    (login ⟨{}, Storage.emptyStore⟩ 5 "user@example.com" "hunter2"
      FlowOutcome.ok).1.st.session = ({} : UserStoreState).session := by
  have h := claim_C1 {} Storage.emptyStore 5 "user@example.com" "hunter2"
    (by intro hc; exact absurd hc.1 (by decide))
  exact ⟨h.1, h.2.2.1, h.2.2.2.1, h.2.2.2.2⟩

/-- C1 counterexample: on a store that already holds a session, a login
attempt with wrong credentials returns `{success:false}` but the session
stays set, refuting "leaves the session unset". -/
theorem claim_C1_counterexample :
    (login ⟨c1CexState, Storage.emptyStore⟩ 0 "someone@example.com" "wrong"
      FlowOutcome.ok).2.success = false ∧
    (login ⟨c1CexState, Storage.emptyStore⟩ 0 "someone@example.com" "wrong"
      FlowOutcome.ok).1.st.session
      = some { token := "tok", expiresAt := none, refreshToken := none } := by
  exact ⟨rfl, rfl⟩

/-- C3: for every storage content in which any of the three persisted
blobs is corrupted JSON, `hydrate` completes through its catch branch,
ends with `session` and `currentUser` unset, and leaves the store's
`error` field exactly as it was (the failure is only logged, never
surfaced). -/
theorem claim_C3 (st : UserStoreState) (sto : Storage)
    (h : (∃ r, sto "userSession" = some (StoredBlob.corrupt r)) ∨
         (∃ r, sto "currentUser" = some (StoredBlob.corrupt r)) ∨
         (∃ r, sto "userPreferences" = some (StoredBlob.corrupt r))) :
    (hydrate ⟨st, sto⟩).st.session = none ∧
    (hydrate ⟨st, sto⟩).st.currentUser = none ∧
    (hydrate ⟨st, sto⟩).st.error = st.error := by
  obtain ⟨e, hb, he⟩ := hydrateBody_corrupt (setLoading ⟨st, sto⟩ true) h
  simp only [hydrate]
  rw [hb]
  exact ⟨rfl, rfl, he⟩

/-- C3 witness: `claim_C3` on a fresh store whose persisted session blob
is corrupted text. -/
theorem claim_C3_witness :
    (hydrate ⟨{}, c3Storage⟩).st.session = none ∧
    (hydrate ⟨{}, c3Storage⟩).st.currentUser = none ∧
    (hydrate ⟨{}, c3Storage⟩).st.error = ({} : UserStoreState).error :=
  claim_C3 {} c3Storage (Or.inl ⟨"not-json", rfl⟩)

/-- C4: `emailValidationError` returns "Email can't be blank" on the empty
email, "Email must be at least 6 characters" on a non-empty email shorter
than 6, "Must be a valid email address" on an email of length at least 6
failing the regex, and `""` otherwise — the three rules applied in exactly
that precedence order. -/
theorem claim_C4 (st : UserStoreState) :
    (userEmail st = "" → emailValidationError st = "Email can't be blank") ∧
    (userEmail st ≠ "" → (userEmail st).length < 6 →
      emailValidationError st = "Email must be at least 6 characters") ∧
    (6 ≤ (userEmail st).length → emailRegexTest (userEmail st) = false →
      emailValidationError st = "Must be a valid email address") ∧
    (6 ≤ (userEmail st).length → emailRegexTest (userEmail st) = true →
      emailValidationError st = "") := by
  have hempty : ("" : String).length = 0 := rfl
  refine ⟨?_, ?_, ?_, ?_⟩
  · intro h
    simp only [emailValidationError]
    rw [if_pos (Or.inl h)]
  · intro h1 h2
    simp only [emailValidationError]
    rw [if_neg ?_, if_pos h2]
    rintro (hc | hc)
    · exact h1 hc
    · exact h1 (string_eq_empty_of_length hc)
  · intro h1 h2
    simp only [emailValidationError]
    rw [if_neg ?_, if_neg (by omega), if_pos (by rw [h2]; rfl)]
    rintro (hc | hc)
    · rw [hc, hempty] at h1
      omega
    · omega
  · intro h1 h2
    simp only [emailValidationError]
    rw [if_neg ?_, if_neg (by omega), if_neg (by rw [h2]; simp)]
    rintro (hc | hc)
    · rw [hc, hempty] at h1
      omega
    · omega

/-- C4 witness: `claim_C4` exercised on all four branches. -/
theorem claim_C4_witness :
    emailValidationError c4StateBlank = "Email can't be blank" ∧
    emailValidationError c4StateShort = "Email must be at least 6 characters" ∧
    emailValidationError c4StateNoAt = "Must be a valid email address" ∧
    emailValidationError c4StateValid = "" :=
  ⟨(claim_C4 c4StateBlank).1 rfl,
   (claim_C4 c4StateShort).2.1 (by decide) (by decide),
   (claim_C4 c4StateNoAt).2.2.1 (by decide) (by decide),
   (claim_C4 c4StateValid).2.2.2 (by decide) (by decide)⟩

/-- C5: `isSessionExpired` is true iff a session is present, its
`expiresAt` is stored, and the parsed expiry timestamp is strictly before
the current time; in particular it is false whenever no expiry is stored.
`parseDate` abstracts JS `Date` parsing; its single assumed fact is that
the empty string (which `!self.session?.expiresAt` also filters out as
falsy) parses to an Invalid Date. -/
theorem claim_C5 (st : UserStoreState) (now : Int)
    (parseDate : String → Option Int) (hparse : parseDate "" = none) :
    isSessionExpired st now parseDate = true ↔
      ∃ s e t, st.session = some s ∧ s.expiresAt = some e ∧
        parseDate e = some t ∧ t < now := by
  cases hs : st.session with
  | none => simp [isSessionExpired, hs]
  | some s =>
      cases he : s.expiresAt with
      | none => simp [isSessionExpired, hs, he]
      | some e =>
          by_cases he0 : e = ""
          · subst he0
            simp [isSessionExpired, hs, he, hparse]
          · cases hp : parseDate e with
            | none => simp [isSessionExpired, hs, he, he0, hp]
            | some t => simp [isSessionExpired, hs, he, he0, hp]

/-- C5 witness: `claim_C5` at a concrete state, time and parse function. -/
theorem claim_C5_witness :
    c5Parse "" = none ∧
    (isSessionExpired c5State 200 c5Parse = true ↔
      ∃ s e t, c5State.session = some s ∧ s.expiresAt = some e ∧
        c5Parse e = some t ∧ t < 200) :=
  ⟨rfl, claim_C5 c5State 200 c5Parse rfl⟩

/-- C6: when a (truthy) refresh token is present and the refresh attempt
throws, `refreshSession` cascades into `logout()` before returning, so it
ends with `session` and `currentUser` cleared and returns a
`{success:false}` result. -/
theorem claim_C6 (st : UserStoreState) (sto : Storage) (now : Int)
    (msg : Option String) (s : UserSession) (rt : String)
    (hs : st.session = some s) (hrt : s.refreshToken = some rt)
    (hne : rt ≠ "") :
    (refreshSession ⟨st, sto⟩ now (.throws msg)).1.st.session = none ∧
    (refreshSession ⟨st, sto⟩ now (.throws msg)).1.st.currentUser = none ∧
    (refreshSession ⟨st, sto⟩ now (.throws msg)).2.success = false := by
  simp only [refreshSession, hs, hrt]
  rw [if_neg hne]
  exact ⟨rfl, rfl, rfl⟩

/-- C6 witness: `claim_C6` at a concrete logged-in store. -/
theorem claim_C6_witness :
    (refreshSession ⟨c6State, Storage.emptyStore⟩ 7
      (.throws (some "boom"))).1.st.session = none ∧
    (refreshSession ⟨c6State, Storage.emptyStore⟩ 7
      (.throws (some "boom"))).1.st.currentUser = none ∧
    (refreshSession ⟨c6State, Storage.emptyStore⟩ 7
      (.throws (some "boom"))).2.success = false :=
  claim_C6 c6State Storage.emptyStore 7 (some "boom")
    { token := "t", expiresAt := none, refreshToken := some "r" } "r"
    rfl rfl (by decide)

/-- C10: under the same failing-refresh circumstances, the cascaded
`logout()` runs `clearError` after `refreshSession` has stored its error
message, so the store's `error` field ends `undefined` even though the
returned result still carries `success:false` with the error string. -/
theorem claim_C10 (st : UserStoreState) (sto : Storage) (now : Int)
    (msg : Option String) (s : UserSession) (rt : String)
    (hs : st.session = some s) (hrt : s.refreshToken = some rt)
    (hne : rt ≠ "") :
    (refreshSession ⟨st, sto⟩ now (.throws msg)).1.st.error = none ∧
    (refreshSession ⟨st, sto⟩ now (.throws msg)).2
      = ⟨false, some (msg.getD "Session refresh failed")⟩ := by
  simp only [refreshSession, hs, hrt]
  rw [if_neg hne]
  exact ⟨rfl, rfl⟩

/-- C10 witness: `claim_C10` at a concrete logged-in store. -/
theorem claim_C10_witness :
    (refreshSession ⟨c6State, Storage.emptyStore⟩ 9
      (.throws (some "nope"))).1.st.error = none ∧
    (refreshSession ⟨c6State, Storage.emptyStore⟩ 9
      (.throws (some "nope"))).2 = ⟨false, some "nope"⟩ :=
  claim_C10 c6State Storage.emptyStore 9 (some "nope")
    { token := "t", expiresAt := none, refreshToken := some "r" } "r"
    rfl rfl (by decide)

/-- C7: every async UserStore flow that sets a loading flag at entry
clears it in its `finally` block, whether the body succeeded or threw:
`login` always clears `isAuthenticating`; `logout`, `hydrate` and
`updatePreferences` always clear `isLoading`; `refreshUser` and
`updateUserProfile` clear `isLoading` whenever they pass their
session-token guard (on the guarded early-return they never set the flag
at entry). -/
theorem claim_C7 (st : UserStoreState) (sto : Storage) (now : Int)
    (email password : String) (outcome : FlowOutcome)
    (updates : ProfileUpdates) (p : PrefsInput) :
    (login ⟨st, sto⟩ now email password outcome).1.st.isAuthenticating
      = false ∧
    (logout ⟨st, sto⟩ outcome).st.isLoading = false ∧
    (hydrate ⟨st, sto⟩).st.isLoading = false ∧
    (sessionTokenTruthy st = true →
      (refreshUser ⟨st, sto⟩ outcome).st.isLoading = false) ∧
    (sessionTokenTruthy st = true →
      (updateUserProfile ⟨st, sto⟩ updates outcome).1.st.isLoading
        = false) ∧
    (updatePreferences ⟨st, sto⟩ p outcome).1.st.isLoading = false := by
  refine ⟨rfl, rfl, rfl, ?_, ?_, rfl⟩
  · intro h
    simp only [refreshUser]
    rw [if_pos h]
    rfl
  · intro h
    simp only [updateUserProfile]
    rw [if_pos h]
    rfl

/-- C7 witness: `claim_C7` at a concrete logged-in store, with both
guards discharged. -/
theorem claim_C7_witness :
    (login ⟨c7State, Storage.emptyStore⟩ 1 "e@x.co" "pw"
      FlowOutcome.ok).1.st.isAuthenticating = false ∧
    (logout ⟨c7State, Storage.emptyStore⟩ FlowOutcome.ok).st.isLoading
      = false ∧
    (hydrate ⟨c7State, Storage.emptyStore⟩).st.isLoading = false ∧
    (refreshUser ⟨c7State, Storage.emptyStore⟩ FlowOutcome.ok).st.isLoading
      = false ∧
    (updateUserProfile ⟨c7State, Storage.emptyStore⟩ {}
      FlowOutcome.ok).1.st.isLoading = false ∧
    (updatePreferences ⟨c7State, Storage.emptyStore⟩ {}
      FlowOutcome.ok).1.st.isLoading = false := by
  have h := claim_C7 c7State Storage.emptyStore 1 "e@x.co" "pw"
    FlowOutcome.ok {} {}
  exact ⟨h.1, h.2.1, h.2.2.1, h.2.2.2.1 (by decide),
    h.2.2.2.2.1 (by decide), h.2.2.2.2.2⟩

/-- C8: round-trip persistence — the three setters write JSON blobs under
exactly the keys "userSession", "currentUser" and "userPreferences" (all
other keys stay empty), and `hydrate()` on a fresh store over that storage
reconstructs `session`, `currentUser` and `preferences` equal to the
persisted values.  The hypothesis restricts `theme` to the enumeration the
`UserPreferences` model accepts (`types.enumeration`), outside which
`create` would throw. -/
theorem claim_C8 (s : UserSession) (u : User) (p : UserPreferences)
    (_hv : p.theme = "light" ∨ p.theme = "dark" ∨ p.theme = "system") :
    (persistAll s u p).sto "userSession" = some (.json (.session s)) ∧
    (persistAll s u p).sto "currentUser" = some (.json (.user u)) ∧
    (persistAll s u p).sto "userPreferences" = some (.json (.prefs p)) ∧
    (∀ k, k ≠ "userSession" → k ≠ "currentUser" → k ≠ "userPreferences" →
      (persistAll s u p).sto k = none) ∧
    (hydrate ⟨{}, (persistAll s u p).sto⟩).st.session = some s ∧
    (hydrate ⟨{}, (persistAll s u p).sto⟩).st.currentUser = some u ∧
    (hydrate ⟨{}, (persistAll s u p).sto⟩).st.preferences = some p := by
  refine ⟨rfl, rfl, rfl, ?_, rfl, rfl, rfl⟩
  intro k h1 h2 h3
  simp only [persistAll, setPreferences, setCurrentUser, setSession,
    Storage.set, Storage.emptyStore]
  rw [if_neg h3, if_neg h2, if_neg h1]

/-- C8 witness: `claim_C8` at concrete session, user and preference
values. -/
theorem claim_C8_witness :
    (persistAll c8Session c8User c8Prefs).sto "userSession"
      = some (.json (.session c8Session)) ∧
    (persistAll c8Session c8User c8Prefs).sto "currentUser"
      = some (.json (.user c8User)) ∧
    (persistAll c8Session c8User c8Prefs).sto "userPreferences"
      = some (.json (.prefs c8Prefs)) ∧
    (hydrate ⟨{}, (persistAll c8Session c8User c8Prefs).sto⟩).st.session
      = some c8Session ∧
    (hydrate ⟨{}, (persistAll c8Session c8User c8Prefs).sto⟩).st.currentUser
      = some c8User ∧
    (hydrate ⟨{}, (persistAll c8Session c8User c8Prefs).sto⟩).st.preferences
      = some c8Prefs := by
  have h := claim_C8 c8Session c8User c8Prefs (Or.inr (Or.inl rfl))
  exact ⟨h.1, h.2.1, h.2.2.1, h.2.2.2.2.1, h.2.2.2.2.2.1, h.2.2.2.2.2.2⟩

/-- C9: a response with status 401 runs `handle401Error`, which invokes
the registered logout callback when one is set (and leaves the invocation
count alone when none is) and resets the navigation stack to the single
route "Login" at index 0 when navigation is ready; a response with any
other status leaves the client state untouched. -/
theorem claim_C9 (c : ApiClientState) (status : Option Nat) :
    (status = some 401 →
      responseTransform c status = handle401Error c ∧
      (c.logoutCallbackSet = true →
        (responseTransform c status).logoutCalls = c.logoutCalls + 1) ∧
      (c.logoutCallbackSet = false →
        (responseTransform c status).logoutCalls = c.logoutCalls) ∧
      (c.navReady = true →
        (responseTransform c status).navRoutes = ["Login"] ∧
        (responseTransform c status).navIndex = 0)) ∧
    (status ≠ some 401 → responseTransform c status = c) := by
  constructor
  · intro h
    subst h
    have hrt : responseTransform c (some 401) = handle401Error c := by
      simp [responseTransform]
    refine ⟨hrt, ?_, ?_, ?_⟩
    · intro hcb
      rw [hrt]
      cases hn : c.navReady <;> simp [handle401Error, hcb, hn]
    · intro hcb
      rw [hrt]
      cases hn : c.navReady <;> simp [handle401Error, hcb, hn]
    · intro hn
      rw [hrt]
      cases hcb : c.logoutCallbackSet <;>
        simp [handle401Error, hcb, hn]
  · intro h
    simp [responseTransform, h]

/-- C9 witness: `claim_C9` on a concrete client, at status 401 and at
status 200. -/
theorem claim_C9_witness :
    responseTransform c9Client (some 401) = handle401Error c9Client ∧
    (responseTransform c9Client (some 401)).logoutCalls
      = c9Client.logoutCalls + 1 ∧
    (responseTransform c9Client (some 401)).navRoutes = ["Login"] ∧
    (responseTransform c9Client (some 401)).navIndex = 0 ∧
    responseTransform c9Client (some 200) = c9Client := by
  have h := (claim_C9 c9Client (some 401)).1 rfl
  have h2 := (claim_C9 c9Client (some 200)).2 (by decide)
  exact ⟨h.1, h.2.1 rfl, (h.2.2.2 rfl).1, (h.2.2.2 rfl).2, h2⟩

/-- C2: after `logout()` — on the success path and on the catch path alike
— `currentUser` and `session` are cleared while `preferences` holds
exactly its previous value. -/
theorem claim_C2 (st : UserStoreState) (sto : Storage)
    (outcome : FlowOutcome) :
    (logout ⟨st, sto⟩ outcome).st.currentUser = none ∧
    (logout ⟨st, sto⟩ outcome).st.session = none ∧
    (logout ⟨st, sto⟩ outcome).st.preferences = st.preferences := by
  cases outcome <;> exact ⟨rfl, rfl, rfl⟩

end CMSMobile
